import Mathlib

/-!
Shallow embedding of the KNoT mcuboot loader
(`boot/bootutil/src/knot_loader.c` together with the NVS preference
store `boot/zephyr/storage.c`).

The loader logic is pure control flow over results supplied by
external collaborators (the flash driver, the NVS key-value store and
the cryptographic image check).  An `Env` record packages one boot
attempt's collaborator behaviour, and `boot_go` is a function from
`Env` to an outcome, a trace of flash open/close and store events, the
final store content, and some ghost observations.  `assert` is
modelled as a no-op (release / NDEBUG semantics); logging other than
the final panic log is not modelled.
-/

namespace KnotLoader

/-- Modelled from the spec: the boot error codes come from
`bootutil_priv.h`, which is not part of this excerpt.  Section 7 of
the spec names the kinds FlashIO, BadImage and BadStatus; mcuboot
defines `BOOT_EFLASH`, `BOOT_EBADIMAGE` and `BOOT_EBADSTATUS` as the
small positive integers 1, 3 and 5, and the fatal-halt test in
`boot_go` (`rc > 0`) relies on their positivity. -/
def BOOT_EFLASH : Int := 1

/-- Modelled from the spec: see `BOOT_EFLASH`. -/
def BOOT_EBADIMAGE : Int := 3

/-- Modelled from the spec: see `BOOT_EFLASH`. -/
def BOOT_EBADSTATUS : Int := 5

/-- Modelled from the spec: the expected image-magic constant from
`bootutil/image.h`, which is not part of this excerpt (mcuboot defines
`IMAGE_MAGIC` as 0x96f3b83d).  The claims only need it to be a fixed
32-bit constant whose bytes are not all equal. -/
def IMAGE_MAGIC : Nat := 0x96f3b83d

/-- Modelled from the spec: the non-bootable header flag bit from
`bootutil/image.h` (mcuboot defines `IMAGE_F_NON_BOOTABLE` as 2). -/
def IMAGE_F_NON_BOOTABLE : Nat := 2

/-- The part of `struct image_header` that the loader consults:
`ih_magic` (uint32) and `ih_flags` (uint32). -/
structure ImageHeader where
  ih_magic : Nat
  ih_flags : Nat
deriving DecidableEq

/-- Observable events of one boot attempt: flash-area opens and
closes (by area id: 0 and 1 for the image banks, 2 for scratch),
key-value store writes and reads of the preference record, and the
panic log emitted just before the fatal infinite loop. -/
inductive Ev where
  | openA (id : Nat)
  | closeA (id : Nat)
  | storeSet (v : Nat)
  | storeGet (r : Option Nat)
  | panicLog
deriving DecidableEq

/-- Byte `i` (little-endian) of a 32-bit value. -/
def magicByte (m i : Nat) : Nat := m / 256 ^ i % 256

/-- `boot_magic_is_erased`: walks the four bytes of the 32-bit magic
field and reports 1 exactly when every byte equals the device's erase
value (returned as `Bool` here; the C function returns int 0/1). -/
def boot_magic_is_erased (erased_val magic : Nat) : Bool :=
  (List.range 4).all fun i => magicByte magic i == erased_val

/-- Outcome of `boot_validate_slot`, distinguishing the four source
branches.  The C function collapses `notBootable` and `corrupt` to the
same return value −1 (they differ only in the log line), which
`slotRc` reproduces. -/
inductive SlotOutcome where
  | eflash
  | notBootable
  | corrupt
  | valid
deriving DecidableEq

/-- The int that `boot_validate_slot` returns for each branch. -/
def slotRc : SlotOutcome → Int
  | .eflash => BOOT_EFLASH
  | .notBootable => -1
  | .corrupt => -1
  | .valid => 0

/-- `boot_validate_slot`: open the slot's flash area (`openOk` is the
collaborator's answer), classify erased/non-bootable headers first,
then check the magic and run the external authenticity/integrity
check (`imgChkOk` is the collaborator's verdict, the result of
`boot_image_check` being 0).  The flash area is closed only on the
fully-valid path — the two early `return -1` paths in the source leave
the area open, which the event trace records faithfully. -/
def boot_validate_slot (openOk : Bool) (erased : Nat) (hdr : ImageHeader)
    (imgChkOk : Bool) (areaId : Nat) : SlotOutcome × List Ev :=
  if !openOk then
    (.eflash, [])
  else if boot_magic_is_erased erased hdr.ih_magic
      || (hdr.ih_flags &&& IMAGE_F_NON_BOOTABLE != 0) then
    (.notBootable, [.openA areaId])
  else if hdr.ih_magic != IMAGE_MAGIC || !imgChkOk then
    (.corrupt, [.openA areaId])
  else
    (.valid, [.openA areaId, .closeA areaId])

/-- `boot_read_image_header`: open the slot's area, read the header,
close the area through the shared `done:` label, and report
`BOOT_EFLASH` on open or read failure.  When the open itself fails the
source still calls `flash_area_close` on the never-assigned handle;
no handle was acquired, so the trace records no events there. -/
def boot_read_image_header (openOk readOk : Bool) (areaId : Nat) :
    Int × List Ev :=
  if !openOk then
    (BOOT_EFLASH, [])
  else if !readOk then
    (BOOT_EFLASH, [.openA areaId, .closeA areaId])
  else
    (0, [.openA areaId, .closeA areaId])

/-- One boot attempt's collaborator behaviour and flash contents:
everything `boot_go` branches on. -/
structure Env where
  /-- `boot_read_sectors` succeeds. -/
  readSectorsOk : Bool
  /-- `flash_area_align` of image bank 0's area. -/
  align0 : Nat
  /-- `flash_area_align` of image bank 1's area. -/
  align1 : Nat
  /-- `flash_area_align` of the scratch area. -/
  alignScratch : Nat
  hdrOpenOk0 : Bool
  hdrReadOk0 : Bool
  hdrOpenOk1 : Bool
  hdrReadOk1 : Bool
  /-- Contents of `boot_data.imgs[0].hdr` after the header read. -/
  hdr0 : ImageHeader
  /-- Contents of `boot_data.imgs[1].hdr` after the header read. -/
  hdr1 : ImageHeader
  valOpenOk0 : Bool
  valOpenOk1 : Bool
  /-- `flash_area_erased_val` of bank 0's area. -/
  erased0 : Nat
  /-- `flash_area_erased_val` of bank 1's area. -/
  erased1 : Nat
  /-- `boot_image_check` returns 0 for bank 0. -/
  imgChkOk0 : Bool
  /-- `boot_image_check` returns 0 for bank 1. -/
  imgChkOk1 : Bool
  /-- `storage_init` returns 0. -/
  storageInitOk : Bool
  /-- Preference-store content at entry (`none` = record absent). -/
  store0 : Option Nat
  /-- The first `storage_get` fails spuriously (beyond absence). -/
  getGlitch1 : Bool
  /-- The second `storage_get` fails spuriously (beyond absence). -/
  getGlitch2 : Bool
  /-- `storage_set` of the bootstrap default succeeds. -/
  setOk : Bool
  /-- `fa_device_id` of bank 0's area. -/
  dev0 : Nat
  /-- `fa_device_id` of bank 1's area. -/
  dev1 : Nat
  /-- `boot_img_slot_off` for bank 0. -/
  off0 : Nat
  /-- `boot_img_slot_off` for bank 1. -/
  off1 : Nat
deriving DecidableEq

/-- `boot_write_sz`: the element size starts as bank 0's alignment
and is replaced by the scratch area's alignment when that is larger.
The source reads only `boot_data.imgs[0].area` and
`boot_data.scratch_area`; bank 1's alignment is never consulted. -/
def boot_write_sz (e : Env) : Nat :=
  if e.alignScratch > e.align0 then e.alignScratch else e.align0

/-- The value, per the spec's words, that the write-alignment unit is
claimed to equal: the maximum over image bank 0, image bank 1 and the
scratch region.  Kept separate from `boot_write_sz` (which embeds the
source) so the two can be compared. -/
def writeAlignSpec (e : Env) : Nat :=
  max e.align0 (max e.align1 e.alignScratch)

/-- `boot_slots_compatible`: reject when either bank has more sectors
than `maxSectors` (`BOOT_MAX_IMG_SECTORS`, a build constant kept as a
parameter here), when the counts differ, or when any sector index has
differing sizes; otherwise return 1.  Sector tables are the lists
discovered by `boot_read_sectors`. -/
def boot_slots_compatible (maxSectors : Nat) (s0 s1 : List Nat) : Nat :=
  if s0.length > maxSectors ∨ s1.length > maxSectors then 0
  else if s0.length ≠ s1.length then 0
  else if (List.range s0.length).all fun i => s0.getD i 0 == s1.getD i 0 then 1
  else 0

/-- `struct boot_rsp`: the hand-off descriptor. -/
structure BootRsp where
  br_flash_dev_id : Nat
  br_image_off : Nat
  br_hdr : ImageHeader
deriving DecidableEq

/-- How `boot_go` ends: `ret rc rsp` models an actual return to the
caller; `halt rc rsp` models the `rc > 0` branch that logs and spins
in `while (1) {}` forever.  The `Option BootRsp` records whether the
caller's response structure was written. -/
inductive GoOutcome where
  | ret (rc : Int) (rsp : Option BootRsp)
  | halt (rc : Int) (rsp : Option BootRsp)
deriving DecidableEq

/-- Result of one embedded `boot_go` run: the outcome, the event
trace, the preference-store content at the end, the preference value
the selection step consumed (ghost), and a ghost flag set exactly when
the `BOOT_EBADSTATUS` branch after a successful magic re-check
executes. -/
structure GoRun where
  outcome : GoOutcome
  trace : List Ev
  finalStore : Option Nat
  prefUsed : Option Nat
  guardBadStatus : Bool
deriving DecidableEq

/-- The shared `out:` label of `boot_go`: close the scratch area
first, then the image banks in reverse acquisition order, and then
either return `rc` or, when `rc > 0`, log and halt forever. -/
def finish (tr : List Ev) (store pref : Option Nat) (guard : Bool)
    (rc : Int) (rsp : Option BootRsp) : GoRun :=
  let tr2 := tr ++ [.closeA 2, .closeA 1, .closeA 0]
  if rc > 0 then
    ⟨.halt rc rsp, tr2 ++ [.panicLog], store, pref, guard⟩
  else
    ⟨.ret rc rsp, tr2, store, pref, guard⟩

/-- Result and trace of `boot_read_image_header` for slot 0. -/
def hdrRun0 (e : Env) : Int × List Ev :=
  boot_read_image_header e.hdrOpenOk0 e.hdrReadOk0 0

/-- Result and trace of `boot_read_image_header` for slot 1. -/
def hdrRun1 (e : Env) : Int × List Ev :=
  boot_read_image_header e.hdrOpenOk1 e.hdrReadOk1 1

/-- `img_status[0]` after the header-read loop. -/
def hdrSt0 (e : Env) : Int := (hdrRun0 e).1

/-- `img_status[1]` after the header-read loop. -/
def hdrSt1 (e : Env) : Int := (hdrRun1 e).1

/-- Result and trace of `boot_validate_slot` for slot 0. -/
def valRun0 (e : Env) : SlotOutcome × List Ev :=
  boot_validate_slot e.valOpenOk0 e.erased0 e.hdr0 e.imgChkOk0 0

/-- Result and trace of `boot_validate_slot` for slot 1. -/
def valRun1 (e : Env) : SlotOutcome × List Ev :=
  boot_validate_slot e.valOpenOk1 e.erased1 e.hdr1 e.imgChkOk1 1

/-- Branch taken by `boot_validate_slot` on slot 0. -/
def valOut0 (e : Env) : SlotOutcome := (valRun0 e).1

/-- Branch taken by `boot_validate_slot` on slot 1. -/
def valOut1 (e : Env) : SlotOutcome := (valRun1 e).1

/-- `img_status[0]` after the validation loop. -/
def valSt0 (e : Env) : Int := slotRc (valOut0 e)

/-- `img_status[1]` after the validation loop. -/
def valSt1 (e : Env) : Int := slotRc (valOut1 e)

/-- Result of the first `storage_get` (`none` = nonzero `retfs`):
it fails when the record is absent or the store glitches. -/
def g1val (e : Env) : Option Nat :=
  if e.getGlitch1 then none else e.store0

/-- Store content after the bootstrap step: when the first get failed
and the default-write succeeded, the record now prefers bank 1. -/
def store1val (e : Env) : Option Nat :=
  if g1val e = none ∧ e.setOk then some 1 else e.store0

/-- Result of the second `storage_get`. -/
def g2val (e : Env) : Option Nat :=
  if e.getGlitch2 then none else store1val e

/-- The slot-selection step of `boot_go`: bank 0 when the stored
preference is 0 and bank 0 validated, else bank 1 when the preference
is positive and bank 1 validated, else no candidate. -/
def boot_select (v : Nat) (st0 st1 : Int) : Option Nat :=
  if v = 0 ∧ st0 = 0 then some 0
  else if 0 < v ∧ st1 = 0 then some 1
  else none

/-- `boot_data.imgs[s].hdr` for the selected slot. -/
def hdrSel (e : Env) (s : Nat) : ImageHeader :=
  if s = 0 then e.hdr0 else e.hdr1

/-- `img_status[s]` (post-validation) for the selected slot. -/
def valStSel (e : Env) (s : Nat) : Int :=
  if s = 0 then valSt0 e else valSt1 e

/-- `fa_device_id` for the selected slot's area. -/
def devSel (e : Env) (s : Nat) : Nat :=
  if s = 0 then e.dev0 else e.dev1

/-- `boot_img_slot_off` for the selected slot. -/
def offSel (e : Env) (s : Nat) : Nat :=
  if s = 0 then e.off0 else e.off1

/-- The final consistency guard of `boot_go` on the selected slot
`s`: re-check the header magic (fatal `BOOT_EBADIMAGE` on mismatch),
then re-test `img_status[s]` — 0 emits the hand-off descriptor with
`rc = 0`, anything else takes the `BOOT_EBADSTATUS` branch, which
sets the ghost `guardBadStatus` flag. -/
def boot_final (e : Env) (tr : List Ev) (v s : Nat) : GoRun :=
  if (hdrSel e s).ih_magic ≠ IMAGE_MAGIC then
    finish tr (store1val e) (some v) false BOOT_EBADIMAGE none
  else if valStSel e s = 0 then
    finish tr (store1val e) (some v) false 0
      (some ⟨devSel e s, offSel e s, hdrSel e s⟩)
  else
    finish tr (store1val e) (some v) true BOOT_EBADSTATUS none

/-- The `out2:` label of `boot_go`: with the preference unreadable,
boot bank 1 directly when its earlier validation status is 0 and its
header magic matches, else fail with `BOOT_EBADSTATUS`; both paths
fall through to `out:`. -/
def boot_out2 (e : Env) (tr : List Ev) : GoRun :=
  if valSt1 e = 0 ∧ e.hdr1.ih_magic = IMAGE_MAGIC then
    finish tr (store1val e) none false 0 (some ⟨e.dev1, e.off1, e.hdr1⟩)
  else
    finish tr (store1val e) none false BOOT_EBADSTATUS none

/-- Trace after the three `flash_area_open` calls that start
`boot_go` (banks 0 and 1, then scratch). -/
def trOpen : List Ev := [.openA 0, .openA 1, .openA 2]

/-- Trace after the header-read loop. -/
def trHdr (e : Env) : List Ev := trOpen ++ (hdrRun0 e).2 ++ (hdrRun1 e).2

/-- Trace after the validation loop. -/
def trVal (e : Env) : List Ev := trHdr e ++ (valRun0 e).2 ++ (valRun1 e).2

/-- Trace after the preference-store phase: the first get, the
bootstrap set when that get failed, and the second get. -/
def trStore (e : Env) : List Ev :=
  trVal e ++ [.storeGet (g1val e)]
    ++ (if g1val e = none then [.storeSet 1] else [])
    ++ [.storeGet (g2val e)]

/-- `boot_go`: open both banks and scratch, resolve sector layout,
read and check both headers, validate both slots, initialise the
preference store, bootstrap an absent preference record to "prefer
bank 1", read the preference back, select a slot and run the final
guard — with every failure funnelled through `finish` (the `out:`
label). -/
def boot_go (e : Env) : GoRun :=
  if e.readSectorsOk then
    if hdrSt0 e ≠ 0 ∧ hdrSt1 e ≠ 0 then
      finish (trHdr e) e.store0 none false BOOT_EBADIMAGE none
    else if valSt0 e ≠ 0 ∧ valSt1 e ≠ 0 then
      finish (trVal e) e.store0 none false BOOT_EBADSTATUS none
    else if e.storageInitOk then
      match g2val e with
      | none => boot_out2 e (trStore e)
      | some v =>
        match boot_select v (valSt0 e) (valSt1 e) with
        | none => finish (trStore e) (store1val e) (some v) false BOOT_EBADIMAGE none
        | some s => boot_final e (trStore e) v s
    else
      finish (trVal e) e.store0 none false BOOT_EBADSTATUS none
  else
    finish trOpen e.store0 none false BOOT_EFLASH none

/-! Helper lemmas about the pieces of `boot_go`. -/

theorem eflash_pos : (0 : Int) < BOOT_EFLASH := by decide

theorem ebadimage_pos : (0 : Int) < BOOT_EBADIMAGE := by decide

theorem ebadstatus_pos : (0 : Int) < BOOT_EBADSTATUS := by decide

theorem finish_outcome_pos (tr : List Ev) (s p : Option Nat) (g : Bool)
    (rc : Int) (rsp : Option BootRsp) (h : 0 < rc) :
    (finish tr s p g rc rsp).outcome = GoOutcome.halt rc rsp := by
  unfold finish
  rw [if_pos h]

theorem finish_outcome_zero (tr : List Ev) (s p : Option Nat) (g : Bool)
    (rsp : Option BootRsp) :
    (finish tr s p g 0 rsp).outcome = GoOutcome.ret 0 rsp := by
  unfold finish
  rw [if_neg (by omega)]

theorem finish_guard (tr : List Ev) (s p : Option Nat) (g : Bool)
    (rc : Int) (rsp : Option BootRsp) :
    (finish tr s p g rc rsp).guardBadStatus = g := by
  unfold finish
  split <;> rfl

theorem finish_finalStore (tr : List Ev) (s p : Option Nat) (g : Bool)
    (rc : Int) (rsp : Option BootRsp) :
    (finish tr s p g rc rsp).finalStore = s := by
  unfold finish
  split <;> rfl

theorem finish_prefUsed (tr : List Ev) (s p : Option Nat) (g : Bool)
    (rc : Int) (rsp : Option BootRsp) :
    (finish tr s p g rc rsp).prefUsed = p := by
  unfold finish
  split <;> rfl

theorem finish_trace_mem (tr : List Ev) (s p : Option Nat) (g : Bool)
    (rc : Int) (rsp : Option BootRsp) (x : Ev) (h : x ∈ tr) :
    x ∈ (finish tr s p g rc rsp).trace := by
  unfold finish
  split <;> simp [h]

theorem finish_panic (tr : List Ev) (s p : Option Nat) (g : Bool)
    (rc : Int) (rsp : Option BootRsp) (h : 0 < rc) :
    Ev.panicLog ∈ (finish tr s p g rc rsp).trace := by
  unfold finish
  rw [if_pos h]
  simp

theorem boot_select_st (v : Nat) (st0 st1 : Int) (s : Nat)
    (h : boot_select v st0 st1 = some s) :
    (if s = 0 then st0 else st1) = 0 := by
  unfold boot_select at h
  split at h
  · cases h
    simp_all
  · split at h
    · cases h
      simp_all
    · cases h

theorem boot_final_guard (e : Env) (tr : List Ev) (v s : Nat)
    (h : valStSel e s = 0) :
    (boot_final e tr v s).guardBadStatus = false := by
  unfold boot_final
  split_ifs
  · exact finish_guard _ _ _ _ _ _
  · exact finish_guard _ _ _ _ _ _

theorem boot_out2_guard (e : Env) (tr : List Ev) :
    (boot_out2 e tr).guardBadStatus = false := by
  unfold boot_out2
  split <;> exact finish_guard _ _ _ _ _ _

theorem boot_final_prefUsed (e : Env) (tr : List Ev) (v s : Nat) :
    (boot_final e tr v s).prefUsed = some v := by
  unfold boot_final
  split_ifs <;> exact finish_prefUsed _ _ _ _ _ _

theorem boot_final_finalStore (e : Env) (tr : List Ev) (v s : Nat) :
    (boot_final e tr v s).finalStore = store1val e := by
  unfold boot_final
  split_ifs <;> exact finish_finalStore _ _ _ _ _ _

theorem boot_final_trace_mem (e : Env) (tr : List Ev) (v s : Nat) (x : Ev)
    (h : x ∈ tr) : x ∈ (boot_final e tr v s).trace := by
  unfold boot_final
  split_ifs <;> exact finish_trace_mem _ _ _ _ _ _ _ h

/-- Under the hypotheses that make `boot_go` reach the decision point
with a successfully read preference value `v`, the run is exactly the
selection step followed by the final guard. -/
theorem boot_go_decision_eq (e : Env) (v : Nat)
    (hrs : e.readSectorsOk = true)
    (hh : ¬(hdrSt0 e ≠ 0 ∧ hdrSt1 e ≠ 0))
    (hv : ¬(valSt0 e ≠ 0 ∧ valSt1 e ≠ 0))
    (hi : e.storageInitOk = true)
    (hg : g2val e = some v) :
    boot_go e =
      match boot_select v (valSt0 e) (valSt1 e) with
      | none => finish (trStore e) (store1val e) (some v) false BOOT_EBADIMAGE none
      | some s => boot_final e (trStore e) v s := by
  unfold boot_go
  rw [hrs, if_pos rfl, if_neg hh, if_neg hv, hi, if_pos rfl, hg]

/-- Under the hypotheses that make `boot_go` reach the decision point
with the second preference read failing, the run is exactly the
`out2:` fallback. -/
theorem boot_go_out2_eq (e : Env)
    (hrs : e.readSectorsOk = true)
    (hh : ¬(hdrSt0 e ≠ 0 ∧ hdrSt1 e ≠ 0))
    (hv : ¬(valSt0 e ≠ 0 ∧ valSt1 e ≠ 0))
    (hi : e.storageInitOk = true)
    (hg : g2val e = none) :
    boot_go e = boot_out2 e (trStore e) := by
  unfold boot_go
  rw [hrs, if_pos rfl, if_neg hh, if_neg hv, hi, if_pos rfl, hg]

/-- A run respects fail-stop semantics: it returns to its caller only
with result 0 and a written response, and every halting run has a
positive result code and the panic log in its trace. -/
def FailStopRun (r : GoRun) : Prop :=
  (∀ rc rsp, r.outcome = GoOutcome.ret rc rsp → rc = 0 ∧ rsp.isSome = true) ∧
  (∀ rc rsp, r.outcome = GoOutcome.halt rc rsp → 0 < rc ∧ Ev.panicLog ∈ r.trace)

theorem finish_failStop (tr : List Ev) (s p : Option Nat) (g : Bool)
    (rc : Int) (rsp : Option BootRsp)
    (h : 0 < rc ∨ (rc = 0 ∧ rsp.isSome = true)) :
    FailStopRun (finish tr s p g rc rsp) := by
  rcases h with h | ⟨h0, hs⟩
  · constructor
    · intro a b hab
      rw [finish_outcome_pos _ _ _ _ _ _ h] at hab
      cases hab
    · intro a b hab
      rw [finish_outcome_pos _ _ _ _ _ _ h] at hab
      injection hab with h1 h2
      subst h1
      exact ⟨h, finish_panic _ _ _ _ _ _ h⟩
  · subst h0
    constructor
    · intro a b hab
      rw [finish_outcome_zero] at hab
      injection hab with h1 h2
      subst h1
      subst h2
      exact ⟨rfl, hs⟩
    · intro a b hab
      rw [finish_outcome_zero] at hab
      cases hab

theorem boot_out2_failStop (e : Env) (tr : List Ev) :
    FailStopRun (boot_out2 e tr) := by
  unfold boot_out2
  split
  · exact finish_failStop _ _ _ _ _ _ (Or.inr ⟨rfl, rfl⟩)
  · exact finish_failStop _ _ _ _ _ _ (Or.inl ebadstatus_pos)

theorem boot_final_failStop (e : Env) (tr : List Ev) (v s : Nat) :
    FailStopRun (boot_final e tr v s) := by
  unfold boot_final
  split_ifs
  · exact finish_failStop _ _ _ _ _ _ (Or.inl ebadimage_pos)
  · exact finish_failStop _ _ _ _ _ _ (Or.inr ⟨rfl, rfl⟩)
  · exact finish_failStop _ _ _ _ _ _ (Or.inl ebadstatus_pos)

theorem boot_go_failStop (e : Env) : FailStopRun (boot_go e) := by
  unfold boot_go
  split_ifs
  · exact finish_failStop _ _ _ _ _ _ (Or.inl ebadimage_pos)
  · exact finish_failStop _ _ _ _ _ _ (Or.inl ebadstatus_pos)
  · split
    · exact boot_out2_failStop _ _
    · split
      · exact finish_failStop _ _ _ _ _ _ (Or.inl ebadimage_pos)
      · exact boot_final_failStop _ _ _ _
  · exact finish_failStop _ _ _ _ _ _ (Or.inl ebadstatus_pos)
  · exact finish_failStop _ _ _ _ _ _ (Or.inl eflash_pos)

theorem boot_final_ok (e : Env) (tr : List Ev) (v s : Nat)
    (hm : (hdrSel e s).ih_magic = IMAGE_MAGIC) (hs : valStSel e s = 0) :
    (boot_final e tr v s).outcome =
      GoOutcome.ret 0 (some ⟨devSel e s, offSel e s, hdrSel e s⟩) := by
  unfold boot_final
  rw [if_neg (fun hc => hc hm), if_pos hs]
  exact finish_outcome_zero _ _ _ _ _

theorem boot_final_badmagic (e : Env) (tr : List Ev) (v s : Nat)
    (hm : (hdrSel e s).ih_magic ≠ IMAGE_MAGIC) :
    (boot_final e tr v s).outcome = GoOutcome.halt BOOT_EBADIMAGE none := by
  unfold boot_final
  rw [if_pos hm]
  exact finish_outcome_pos _ _ _ _ _ _ ebadimage_pos

/-! Concrete environments used as witnesses and counterexamples. -/

/-- A nominal boot attempt: bank 0 holds a valid image, bank 1 is
erased flash (every magic byte reads 0xff), the preference record
stores 0 (prefer bank 0) and no collaborator call fails. -/
def envNominal : Env :=
  { readSectorsOk := true, align0 := 1, align1 := 1, alignScratch := 1,
    hdrOpenOk0 := true, hdrReadOk0 := true,
    hdrOpenOk1 := true, hdrReadOk1 := true,
    hdr0 := ⟨IMAGE_MAGIC, 0⟩, hdr1 := ⟨0xffffffff, 0⟩,
    valOpenOk0 := true, valOpenOk1 := true,
    erased0 := 0xff, erased1 := 0xff,
    imgChkOk0 := true, imgChkOk1 := true,
    storageInitOk := true, store0 := some 0,
    getGlitch1 := false, getGlitch2 := false, setOk := true,
    dev0 := 7, dev1 := 8, off0 := 0x8000, off1 := 0x42000 }

/-- `envNominal` with distinct region alignments (bank 1's the
largest). -/
def envAlign : Env :=
  { envNominal with align0 := 1, align1 := 8, alignScratch := 2 }

/-- `envNominal` with bank 0 also erased: both slots unusable. -/
def envBothBad : Env :=
  { envNominal with hdr0 := ⟨0xffffffff, 0⟩ }

/-- `envNominal` with a valid image in bank 1 as well and the second
preference read failing. -/
def envPrefFail : Env :=
  { envNominal with hdr1 := ⟨IMAGE_MAGIC, 0⟩, getGlitch2 := true }

/-- `envNominal` with a valid image in bank 1 and the preference
record absent at entry (first boot). -/
def envFirstBoot : Env :=
  { envNominal with hdr1 := ⟨IMAGE_MAGIC, 0⟩, store0 := none }

/-! The claims. -/

/-- C2: every execution of `boot_go` that ends in a failure result
code logs the panic message and enters the infinite loop, never
returning control; `boot_go` returns to its caller only with result 0
and a populated hand-off descriptor. -/
theorem boot_go_fail_stop_c2 (e : Env) :
    (∀ rc rsp, (boot_go e).outcome = GoOutcome.ret rc rsp →
        rc = 0 ∧ rsp.isSome = true) ∧
    (∀ rc rsp, (boot_go e).outcome = GoOutcome.halt rc rsp →
        0 < rc ∧ Ev.panicLog ∈ (boot_go e).trace) :=
  boot_go_failStop e

/-- C2 witness: the theorem applied to the nominal environment, whose
run returns with result 0 and a bank-0 descriptor. -/
theorem boot_go_fail_stop_c2_witness :
    (0 : Int) = 0 ∧
      (some (⟨7, 0x8000, ⟨IMAGE_MAGIC, 0⟩⟩ : BootRsp)).isSome = true :=
  (boot_go_fail_stop_c2 envNominal).1 0
    (some ⟨7, 0x8000, ⟨IMAGE_MAGIC, 0⟩⟩) (by decide)

/-- C10: the `BOOT_EBADSTATUS` branch after a successful magic
re-check on the selected slot is unreachable — the ghost flag that
marks it is false on every run of `boot_go`, because the selection
step only ever picks a slot whose stored validation status is 0. -/
theorem guard_bad_status_unreachable_c10 (e : Env) :
    (boot_go e).guardBadStatus = false := by
  unfold boot_go
  split_ifs
  · exact finish_guard _ _ _ _ _ _
  · exact finish_guard _ _ _ _ _ _
  · split
    · exact boot_out2_guard _ _
    · split
      · exact finish_guard _ _ _ _ _ _
      · rename_i v s heq
        exact boot_final_guard _ _ _ _ (boot_select_st _ _ _ _ heq)
  · exact finish_guard _ _ _ _ _ _
  · exact finish_guard _ _ _ _ _ _

/-- C4: a slot whose magic field reads back as the erased-value
pattern, or whose non-bootable flag is set, is classified
`NotBootable` — not `Corrupt` and not an error — and the outcome does
not depend on the authenticity/integrity check's verdict (the check
is not consulted on this path). -/
theorem validate_slot_erased_c4 (erased : Nat) (hdr : ImageHeader)
    (chk chk2 : Bool) (areaId : Nat)
    (h : boot_magic_is_erased erased hdr.ih_magic = true ∨
         hdr.ih_flags &&& IMAGE_F_NON_BOOTABLE ≠ 0) :
    (boot_validate_slot true erased hdr chk areaId).1 =
        SlotOutcome.notBootable ∧
    (boot_validate_slot true erased hdr chk areaId).1 ≠
        SlotOutcome.corrupt ∧
    (boot_validate_slot true erased hdr chk areaId).1 ≠
        SlotOutcome.eflash ∧
    boot_validate_slot true erased hdr chk areaId =
        boot_validate_slot true erased hdr chk2 areaId := by
  have hc : (boot_magic_is_erased erased hdr.ih_magic
      || (hdr.ih_flags &&& IMAGE_F_NON_BOOTABLE != 0)) = true := by
    rcases h with h | h
    · rw [h, Bool.true_or]
    · have hb : (hdr.ih_flags &&& IMAGE_F_NON_BOOTABLE != 0) = true := by
        simpa using h
      rw [hb, Bool.or_true]
  unfold boot_validate_slot
  simp [hc]

/-- C4 witness: an all-0xff magic field on a device whose erase value
is 0xff is `NotBootable`, for either verdict of the integrity check. -/
theorem validate_slot_erased_c4_witness :
    (boot_validate_slot true 0xff ⟨0xffffffff, 0⟩ false 1).1 =
        SlotOutcome.notBootable ∧
    (boot_validate_slot true 0xff ⟨0xffffffff, 0⟩ false 1).1 ≠
        SlotOutcome.corrupt ∧
    (boot_validate_slot true 0xff ⟨0xffffffff, 0⟩ false 1).1 ≠
        SlotOutcome.eflash ∧
    boot_validate_slot true 0xff ⟨0xffffffff, 0⟩ false 1 =
        boot_validate_slot true 0xff ⟨0xffffffff, 0⟩ true 1 :=
  validate_slot_erased_c4 0xff ⟨0xffffffff, 0⟩ false true 1
    (Or.inl (by decide))

/-- C5: counterexample to "every opened region handle is closed
exactly once".  In the spec's own Scenario A (bank 0 valid, bank 1
erased, nothing failing), the run succeeds, yet bank 1's area is
opened three times (the initial open, the header read, and
`boot_validate_slot`) and closed only twice: the validate-slot open is
leaked on the not-bootable early return. -/
theorem validate_leak_c5 :
    (boot_go envNominal).outcome =
        GoOutcome.ret 0 (some ⟨7, 0x8000, ⟨IMAGE_MAGIC, 0⟩⟩) ∧
    ((boot_go envNominal).trace.count (Ev.openA 1) = 3 ∧
     (boot_go envNominal).trace.count (Ev.closeA 1) = 2) := by
  decide

/-- C8 counterexample: with bank 0 alignment 1, bank 1 alignment 8
and scratch alignment 2, `boot_write_sz` yields 2, not the maximum 8
over all three regions claimed by the spec. -/
theorem write_sz_c8_counterexample :
    boot_write_sz envAlign ≠ writeAlignSpec envAlign := by
  decide

/-- C8 amended: the write-alignment unit equals the maximum of the
alignments of image bank 0 and the scratch region only; bank 1's
alignment is not consulted. -/
theorem write_sz_c8_amended (e : Env) :
    boot_write_sz e = max e.align0 e.alignScratch := by
  unfold boot_write_sz
  rcases Nat.lt_or_ge e.align0 e.alignScratch with h | h
  · rw [if_pos h, Nat.max_eq_right (Nat.le_of_lt h)]
  · rw [if_neg (by omega), Nat.max_eq_left h]

/-- C9: the swap-compatibility check returns 1 exactly when both
sector counts are within the maximum, the counts are equal and every
sector index has equal sizes; and the check always returns the normal
value 0 or 1. -/
theorem slots_compatible_c9 (maxS : Nat) (s0 s1 : List Nat) :
    (boot_slots_compatible maxS s0 s1 = 1 ↔
      s0.length ≤ maxS ∧ s1.length ≤ maxS ∧ s0.length = s1.length ∧
      ∀ i < s0.length, s0.getD i 0 = s1.getD i 0) ∧
    (boot_slots_compatible maxS s0 s1 = 0 ∨
     boot_slots_compatible maxS s0 s1 = 1) := by
  constructor
  · constructor
    · intro h
      unfold boot_slots_compatible at h
      by_cases h1 : s0.length > maxS ∨ s1.length > maxS
      · rw [if_pos h1] at h
        exact absurd h (by decide)
      · rw [if_neg h1] at h
        by_cases h2 : s0.length ≠ s1.length
        · rw [if_pos h2] at h
          exact absurd h (by decide)
        · rw [if_neg h2] at h
          by_cases h3 : ((List.range s0.length).all
              fun i => s0.getD i 0 == s1.getD i 0) = true
          · push_neg at h1
            refine ⟨h1.1, h1.2, by omega, ?_⟩
            intro i hi
            simpa using List.all_eq_true.mp h3 i (List.mem_range.mpr hi)
          · rw [if_neg h3] at h
            exact absurd h (by decide)
    · rintro ⟨ha, hb, hc, hd⟩
      unfold boot_slots_compatible
      have h3 : ((List.range s0.length).all
          fun i => s0.getD i 0 == s1.getD i 0) = true := by
        rw [List.all_eq_true]
        intro i hi
        simpa using hd i (List.mem_range.mp hi)
      rw [if_neg (by omega), if_neg (by omega), if_pos h3]
  · unfold boot_slots_compatible
    split_ifs <;> simp

/-- C9 witness: two identical two-sector layouts within the bound are
compatible. -/
theorem slots_compatible_c9_witness :
    boot_slots_compatible 8 [4, 4] [4, 4] = 1 :=
  (slots_compatible_c9 8 [4, 4] [4, 4]).1.mpr
    ⟨by decide, by decide, rfl, by
      intro i hi
      simp only [List.length_cons, List.length_nil] at hi
      interval_cases i <;> rfl⟩

/-- C1: once the run reaches the decision point with a successfully
read preference value `v`, `boot_go` selects bank 0 when `v = 0` and
bank 0 validated, else bank 1 when `v` is non-zero and bank 1
validated, else halts fatally; for a selected bank it re-checks the
header magic, halting fatally on mismatch and otherwise returning the
hand-off descriptor (device id, image offset, header reference) with
result 0. -/
theorem decision_engine_c1 (e : Env) (v : Nat)
    (hrs : e.readSectorsOk = true)
    (hh : ¬(hdrSt0 e ≠ 0 ∧ hdrSt1 e ≠ 0))
    (hv : ¬(valSt0 e ≠ 0 ∧ valSt1 e ≠ 0))
    (hi : e.storageInitOk = true)
    (hg : g2val e = some v) :
    ((v = 0 ∧ valSt0 e = 0) →
      (e.hdr0.ih_magic = IMAGE_MAGIC →
        (boot_go e).outcome = GoOutcome.ret 0 (some ⟨e.dev0, e.off0, e.hdr0⟩)) ∧
      (e.hdr0.ih_magic ≠ IMAGE_MAGIC →
        (boot_go e).outcome = GoOutcome.halt BOOT_EBADIMAGE none)) ∧
    ((¬(v = 0 ∧ valSt0 e = 0) ∧ 0 < v ∧ valSt1 e = 0) →
      (e.hdr1.ih_magic = IMAGE_MAGIC →
        (boot_go e).outcome = GoOutcome.ret 0 (some ⟨e.dev1, e.off1, e.hdr1⟩)) ∧
      (e.hdr1.ih_magic ≠ IMAGE_MAGIC →
        (boot_go e).outcome = GoOutcome.halt BOOT_EBADIMAGE none)) ∧
    ((¬(v = 0 ∧ valSt0 e = 0) ∧ ¬(0 < v ∧ valSt1 e = 0)) →
      (boot_go e).outcome = GoOutcome.halt BOOT_EBADIMAGE none) := by
  rw [boot_go_decision_eq e v hrs hh hv hi hg]
  refine ⟨?_, ?_, ?_⟩
  · rintro ⟨hv0, hs0⟩
    have hsel : boot_select v (valSt0 e) (valSt1 e) = some 0 := by
      unfold boot_select
      rw [if_pos ⟨hv0, hs0⟩]
    rw [hsel]
    exact ⟨fun hm => boot_final_ok e _ v 0 hm hs0,
           fun hm => boot_final_badmagic e _ v 0 hm⟩
  · rintro ⟨hn0, hpos, hs1⟩
    have hsel : boot_select v (valSt0 e) (valSt1 e) = some 1 := by
      unfold boot_select
      rw [if_neg hn0, if_pos ⟨hpos, hs1⟩]
    rw [hsel]
    exact ⟨fun hm => boot_final_ok e _ v 1 hm hs1,
           fun hm => boot_final_badmagic e _ v 1 hm⟩
  · rintro ⟨hn0, hn1⟩
    have hsel : boot_select v (valSt0 e) (valSt1 e) = none := by
      unfold boot_select
      rw [if_neg hn0, if_neg hn1]
    rw [hsel]
    exact finish_outcome_pos _ _ _ _ _ _ ebadimage_pos

/-- C1 witness: the nominal environment takes the bank-0 branch and
returns the bank-0 descriptor. -/
theorem decision_engine_c1_witness :
    (boot_go envNominal).outcome =
      GoOutcome.ret 0 (some ⟨7, 0x8000, ⟨IMAGE_MAGIC, 0⟩⟩) := by
  have h := decision_engine_c1 envNominal 0 (by decide) (by decide)
    (by decide) (by decide) (by decide)
  exact (h.1 ⟨rfl, by decide⟩).1 (by decide)

/-- C3: when both slots validate as `NotBootable` or `Corrupt`, the
outcome of `boot_go` is a fatal halt and the response structure is
never written. -/
theorem both_unusable_fatal_c3 (e : Env)
    (h0 : valOut0 e = SlotOutcome.notBootable ∨
          valOut0 e = SlotOutcome.corrupt)
    (h1 : valOut1 e = SlotOutcome.notBootable ∨
          valOut1 e = SlotOutcome.corrupt) :
    ∃ rc, (boot_go e).outcome = GoOutcome.halt rc none := by
  have hst0 : valSt0 e ≠ 0 := by
    unfold valSt0
    rcases h0 with h | h <;> rw [h] <;> decide
  have hst1 : valSt1 e ≠ 0 := by
    unfold valSt1
    rcases h1 with h | h <;> rw [h] <;> decide
  unfold boot_go
  by_cases hrs : e.readSectorsOk = true
  · rw [hrs, if_pos rfl]
    by_cases hh : hdrSt0 e ≠ 0 ∧ hdrSt1 e ≠ 0
    · rw [if_pos hh]
      exact ⟨BOOT_EBADIMAGE, finish_outcome_pos _ _ _ _ _ _ ebadimage_pos⟩
    · rw [if_neg hh, if_pos ⟨hst0, hst1⟩]
      exact ⟨BOOT_EBADSTATUS, finish_outcome_pos _ _ _ _ _ _ ebadstatus_pos⟩
  · rw [if_neg hrs]
    exact ⟨BOOT_EFLASH, finish_outcome_pos _ _ _ _ _ _ eflash_pos⟩

/-- C3 witness: with both banks erased, the run halts with
`BOOT_EBADSTATUS` and no descriptor. -/
theorem both_unusable_fatal_c3_witness :
    ∃ rc, (boot_go envBothBad).outcome = GoOutcome.halt rc none :=
  both_unusable_fatal_c3 envBothBad (Or.inl (by decide)) (Or.inl (by decide))

/-- C6: when the second preference read fails after a successful
store initialisation, `boot_go` emits the bank-1 descriptor when bank
1's earlier validation status is 0 and its header magic matches, and
otherwise halts fatally with `BOOT_EBADSTATUS`. -/
theorem pref_read_fail_fallback_c6 (e : Env)
    (hrs : e.readSectorsOk = true)
    (hh : ¬(hdrSt0 e ≠ 0 ∧ hdrSt1 e ≠ 0))
    (hv : ¬(valSt0 e ≠ 0 ∧ valSt1 e ≠ 0))
    (hi : e.storageInitOk = true)
    (hg : g2val e = none) :
    ((valSt1 e = 0 ∧ e.hdr1.ih_magic = IMAGE_MAGIC) →
      (boot_go e).outcome = GoOutcome.ret 0 (some ⟨e.dev1, e.off1, e.hdr1⟩)) ∧
    (¬(valSt1 e = 0 ∧ e.hdr1.ih_magic = IMAGE_MAGIC) →
      (boot_go e).outcome = GoOutcome.halt BOOT_EBADSTATUS none) := by
  rw [boot_go_out2_eq e hrs hh hv hi hg]
  unfold boot_out2
  constructor
  · intro hb
    rw [if_pos hb]
    exact finish_outcome_zero _ _ _ _ _
  · intro hb
    rw [if_neg hb]
    exact finish_outcome_pos _ _ _ _ _ _ ebadstatus_pos

/-- C6 witness: bank 1 valid and the second read glitching yields the
bank-1 descriptor. -/
theorem pref_read_fail_fallback_c6_witness :
    (boot_go envPrefFail).outcome =
      GoOutcome.ret 0 (some ⟨8, 0x42000, ⟨IMAGE_MAGIC, 0⟩⟩) := by
  have h := pref_read_fail_fallback_c6 envPrefFail (by decide) (by decide)
    (by decide) (by decide) (by decide)
  exact h.1 (by decide)

/-- C7: when the preference record is absent at entry and the
default-write succeeds, the engine issues a store write of "prefer
bank 1" during the run, the second read performed in the same attempt
observes that default (it is the preference value the selection step
consumes), and the store ends the attempt holding it. -/
theorem bootstrap_default_c7 (e : Env)
    (hrs : e.readSectorsOk = true)
    (hh : ¬(hdrSt0 e ≠ 0 ∧ hdrSt1 e ≠ 0))
    (hv : ¬(valSt0 e ≠ 0 ∧ valSt1 e ≠ 0))
    (hi : e.storageInitOk = true)
    (habs : e.store0 = none)
    (hset : e.setOk = true)
    (hgl : e.getGlitch2 = false) :
    Ev.storeSet 1 ∈ (boot_go e).trace ∧
    (boot_go e).prefUsed = some 1 ∧
    (boot_go e).finalStore = some 1 := by
  have hg1 : g1val e = none := by
    unfold g1val
    rw [habs]
    split <;> rfl
  have hst : store1val e = some 1 := by
    unfold store1val
    rw [if_pos ⟨hg1, hset⟩]
  have hg2 : g2val e = some 1 := by
    unfold g2val
    rw [hgl, if_neg (by decide)]
    exact hst
  have hmem : Ev.storeSet 1 ∈ trStore e := by
    unfold trStore
    rw [hg1]
    simp
  rw [boot_go_decision_eq e 1 hrs hh hv hi hg2]
  rcases hsel : boot_select 1 (valSt0 e) (valSt1 e) with _ | s
  · refine ⟨finish_trace_mem _ _ _ _ _ _ _ hmem, ?_, ?_⟩
    · exact finish_prefUsed _ _ _ _ _ _
    · have h2 : (finish (trStore e) (store1val e) (some 1) false
          BOOT_EBADIMAGE none).finalStore = some 1 := by
        rw [finish_finalStore, hst]
      exact h2
  · refine ⟨boot_final_trace_mem _ _ _ _ _ hmem, ?_, ?_⟩
    · exact boot_final_prefUsed _ _ _ _
    · have h2 : (boot_final e (trStore e) 1 s).finalStore = some 1 := by
        rw [boot_final_finalStore, hst]
      exact h2

/-- C7 witness: a first boot (record absent) with bank 1 valid writes
and then observes the bank-1 default. -/
theorem bootstrap_default_c7_witness :
    Ev.storeSet 1 ∈ (boot_go envFirstBoot).trace ∧
    (boot_go envFirstBoot).prefUsed = some 1 ∧
    (boot_go envFirstBoot).finalStore = some 1 :=
  bootstrap_default_c7 envFirstBoot (by decide) (by decide) (by decide)
    (by decide) rfl rfl rfl

end KnotLoader
